import Mathlib

/-!
Shallow embedding of the kitties-contracts repository:
  * `KittyCoin`  — src/kitty_coin/lib.rs  (ERC-20-style fungible ledger)
  * `Kitties`    — src/kitties/lib.rs     (ERC-721-style non-fungible registry)
  * `KittyMarket`— src/kitty_market/lib.rs (marketplace composing both)

Modelling conventions:
  * `AccountId` is modelled as `Nat`; the null account `AccountId::from([0x0; 32])`
    is `0`.  `Balance` (`u128`) and counts (`u32`) are `Nat`.
  * ink! `Mapping<K, V>` is modelled as `K → Option V`; `Mapping::insert` is a
    pointwise functional update, `get(..).unwrap_or_default()` is `Option.getD`.
    `Mapping<(A, A), ()>` (operator approvals) is modelled as a `Bool`-valued map,
    `contains` being membership.
  * Each `#[ink(message)]` takes the environment caller as an explicit argument
    and returns the `Result` together with the post state and the events the
    contract itself emitted, threaded as explicit state passing.  State mutated
    before an early `return Err(..)` stays mutated in the returned state (the
    host-level whole-transaction rollback is external to this code, per the spec).
  * A Rust panic (an `expect` on `None`, or a checked-arithmetic overflow in the
    contract build, where `overflow-checks` is enabled) is modelled as the whole
    call returning `none`; a normal return is `some`.
  * Cross-contract calls (registry → ledger in `mint`, market → ledger/registry
    in `buy` / listing) pass the calling contract's account id as the callee's
    caller; the callee's state is threaded explicitly.
-/

abbrev AccountId : Type := Nat

abbrev Balance : Type := Nat

abbrev KittyId : Type := Nat

/-- The null account `AccountId::from([0x0; 32])`. -/
def nullAccount : AccountId := 0

/-- Decidable equality for `Except`, used to evaluate concrete runs by `decide`. -/
instance {e a : Type} [DecidableEq e] [DecidableEq a] : DecidableEq (Except e a) := fun x y =>
  match x, y with
  | .ok u, .ok v =>
    if h : u = v then isTrue (by rw [h]) else isFalse (fun hc => by cases hc; exact h rfl)
  | .error u, .error v =>
    if h : u = v then isTrue (by rw [h]) else isFalse (fun hc => by cases hc; exact h rfl)
  | .ok _, .error _ => isFalse (fun hc => by cases hc)
  | .error _, .ok _ => isFalse (fun hc => by cases hc)

/-- Errors of `trait_erc20` (src/trait_erc20/lib.rs). -/
inductive ERC20Error : Type
  | BalanceTooLow
  | AllowanceTooLow
deriving DecidableEq, Repr

/-- Errors of `trait_erc721` (src/trait_erc721/lib.rs). -/
inductive ERC721Error : Type
  | NotOwner
  | NotApproved
  | TokenExists
  | TokenNotFound
  | CannotInsert
  | CannotFetchValue
  | NotAllowed
  | CoinTransferFail
deriving DecidableEq, Repr

/-- Events emitted by the `kitty_coin` contract. -/
inductive CoinEvent : Type
  | Transfer : Option AccountId → Option AccountId → Balance → CoinEvent
  | Approval : AccountId → AccountId → Balance → CoinEvent
deriving DecidableEq, Repr

/-- Storage of the `KittyCoin` contract (src/kitty_coin/lib.rs, lines 9-15). -/
structure KittyCoin : Type where
  total_supply : Balance
  balances : AccountId → Option Balance
  allowances : AccountId × AccountId → Option Balance

/-- Constructor `KittyCoin::new` (lines 36-52): the whole supply goes to the
caller; the genesis `Transfer` event is emitted (not recorded here, no claim
concerns it). -/
def KittyCoin.new (caller : AccountId) (total_supply : Balance) : KittyCoin :=
  { total_supply := total_supply
    balances := fun a => if a = caller then some total_supply else none
    allowances := fun _ => none }

/-- Getter `balance_of` (lines 89-92): zero default. -/
def KittyCoin.balance_of (s : KittyCoin) (who : AccountId) : Balance :=
  (s.balances who).getD 0

/-- Getter `allowances_of` (lines 95-99): allowance of `spender` on the caller. -/
def KittyCoin.allowances_of (s : KittyCoin) (caller spender : AccountId) : Balance :=
  (s.allowances (caller, spender)).getD 0

/-- `transfer_helper` (lines 54-77).  Both balances are read before either is
written, so on `from_ = to_` the later `insert` wins and the account ends at its
old balance plus `value`.  The `u128` credit `balance_to + value` is checked
arithmetic in the contract build: overflow is a panic, modelled as `none`. -/
def KittyCoin.transfer_helper (s : KittyCoin) (from_ to_ : AccountId) (value : Balance) :
    Option (Except ERC20Error Unit × KittyCoin × List CoinEvent) :=
  let balance_from := s.balance_of from_
  let balance_to := s.balance_of to_
  if value > balance_from then
    some (.error .BalanceTooLow, s, [])
  else if balance_to + value < 2 ^ 128 then
    some (.ok (),
      { s with balances := fun a =>
          if a = to_ then some (balance_to + value)
          else if a = from_ then some (balance_from - value)
          else s.balances a },
      [CoinEvent.Transfer (some from_) (some to_) value])
  else none

/-- Message `approve` (lines 104-115): unconditionally overwrites the allowance. -/
def KittyCoin.approve (s : KittyCoin) (caller spender : AccountId) (value : Balance) :
    Except ERC20Error Unit × KittyCoin × List CoinEvent :=
  (.ok (),
    { s with allowances := fun p =>
        if p = (caller, spender) then some value else s.allowances p },
    [CoinEvent.Approval caller spender value])

/-- Message `transfer` (lines 119-122). -/
def KittyCoin.transfer (s : KittyCoin) (caller to_ : AccountId) (value : Balance) :
    Option (Except ERC20Error Unit × KittyCoin × List CoinEvent) :=
  s.transfer_helper caller to_ value

/-- Message `transfer_from` (lines 127-139).  The allowance is decremented
before `transfer_helper` runs, so the decrement is also present in the state
returned alongside a `BalanceTooLow` error. -/
def KittyCoin.transfer_from (s : KittyCoin) (caller from_ to_ : AccountId) (value : Balance) :
    Option (Except ERC20Error Unit × KittyCoin × List CoinEvent) :=
  let allowance := (s.allowances (from_, caller)).getD 0
  if allowance < value then
    some (.error .AllowanceTooLow, s, [])
  else
    let s1 : KittyCoin :=
      { s with allowances := fun p =>
          if p = (from_, caller) then some (allowance - value) else s.allowances p }
    s1.transfer_helper from_ to_ value

/-- Events emitted by the `kitties` contract (src/kitties/lib.rs, lines 78-109). -/
inductive KEvent : Type
  | Transfer : Option AccountId → Option AccountId → KittyId → KEvent
  | Approval : AccountId → AccountId → KittyId → KEvent
  | ApprovalForAll : AccountId → AccountId → Bool → KEvent
deriving DecidableEq, Repr

/-- Storage of the `Kitties` contract (src/kitties/lib.rs, lines 62-76).  The
`acceptable_erc20` contract reference and `mint_price` are passed to `mint`
explicitly instead of being stored. -/
structure Kitties : Type where
  kitty_owner : KittyId → Option AccountId
  token_approvals : KittyId → Option AccountId
  owned_kitties_count : AccountId → Option Nat
  operator_approvals : AccountId × AccountId → Bool

/-- Constructor `Kitties::new` (lines 113-123): all four mappings empty. -/
def Kitties.new : Kitties :=
  { kitty_owner := fun _ => none
    token_approvals := fun _ => none
    owned_kitties_count := fun _ => none
    operator_approvals := fun _ => false }

/-- `balance_of_or_zero` (lines 253-255). -/
def Kitties.balance_of_or_zero (s : Kitties) (of : AccountId) : Nat :=
  (s.owned_kitties_count of).getD 0

/-- Getter `approved_for_all` (lines 258-260): operator-approval membership. -/
def Kitties.approved_for_all (s : Kitties) (owner operator : AccountId) : Bool :=
  s.operator_approvals (owner, operator)

/-- `exists` (lines 276-278); trailing underscore because `exists` is reserved
in Lean. -/
def Kitties.exists_ (s : Kitties) (id : KittyId) : Bool :=
  (s.kitty_owner id).isSome

/-- `approved_or_owner` (lines 264-273).  Mirrors the Rust short-circuit
`from != Some(null) && (from == owner || from == approvals || operator)`; the
final disjunct evaluates `owner.expect(..)` and `from.expect(..)`, a panic
(`none`) when either is `None`. -/
def Kitties.approved_or_owner (s : Kitties) (from_ : Option AccountId) (id : KittyId) :
    Option Bool :=
  let owner := s.kitty_owner id
  if from_ = some nullAccount then some false
  else if from_ = owner then some true
  else if from_ = s.token_approvals id then some true
  else
    match owner, from_ with
    | some o, some f => some (s.approved_for_all o f)
    | _, _ => none

/-- `clear_approval` (lines 248-250). -/
def Kitties.clear_approval (s : Kitties) (id : KittyId) : Kitties :=
  { s with token_approvals := fun k => if k = id then none else s.token_approvals k }

/-- `remove_token_from` (lines 151-170).  `count - 1` is checked `u32`
arithmetic: decrementing a stored count of `0` panics (`none`). -/
def Kitties.remove_token_from (s : Kitties) (from_ : AccountId) (id : KittyId) :
    Option (Except ERC721Error Unit × Kitties) :=
  if (s.kitty_owner id).isSome = false then
    some (.error .TokenNotFound, s)
  else
    match s.owned_kitties_count from_ with
    | none => some (.error .CannotFetchValue, s)
    | some c =>
      if c = 0 then none
      else
        some (.ok (),
          { s with
            owned_kitties_count := fun a =>
              if a = from_ then some (c - 1) else s.owned_kitties_count a
            kitty_owner := fun k => if k = id then none else s.kitty_owner k })

/-- `add_token_to` (lines 173-194).  `count + 1` is checked `u32` arithmetic:
incrementing a stored count of `u32::MAX` panics (`none`). -/
def Kitties.add_token_to (s : Kitties) (to_ : AccountId) (id : KittyId) :
    Option (Except ERC721Error Unit × Kitties) :=
  if (s.kitty_owner id).isSome then
    some (.error .TokenExists, s)
  else if to_ = nullAccount then
    some (.error .NotAllowed, s)
  else
    match s.owned_kitties_count to_ with
    | some c =>
      if c + 1 < 2 ^ 32 then
        some (.ok (),
          { s with
            owned_kitties_count := fun a =>
              if a = to_ then some (c + 1) else s.owned_kitties_count a
            kitty_owner := fun k => if k = id then some to_ else s.kitty_owner k })
      else none
    | none =>
      some (.ok (),
        { s with
          owned_kitties_count := fun a =>
            if a = to_ then some 1 else s.owned_kitties_count a
          kitty_owner := fun k => if k = id then some to_ else s.kitty_owner k })

/-- `transfer_token_from` (lines 126-148).  The approval is cleared before the
ownership bookkeeping, so the cleared approval survives into the state returned
with a `remove_token_from` / `add_token_to` error. -/
def Kitties.transfer_token_from (s : Kitties) (caller from_ to_ : AccountId) (id : KittyId) :
    Option (Except ERC721Error Unit × Kitties × List KEvent) :=
  if s.exists_ id = false then
    some (.error .TokenNotFound, s, [])
  else
    match s.approved_or_owner (some caller) id with
    | none => none
    | some false => some (.error .NotApproved, s, [])
    | some true =>
      let s1 := s.clear_approval id
      match s1.remove_token_from from_ id with
      | none => none
      | some (.error e, s2) => some (.error e, s2, [])
      | some (.ok _, s2) =>
        match s2.add_token_to to_ id with
        | none => none
        | some (.error e, s3) => some (.error e, s3, [])
        | some (.ok _, s3) =>
          some (.ok (), s3, [KEvent.Transfer (some from_) (some to_) id])

/-- `approve_for_all` (lines 197-215): the mutating operator-approval call.
The event is emitted even when nothing changes. -/
def Kitties.approve_for_all (s : Kitties) (caller to_ : AccountId) (approved : Bool) :
    Except ERC721Error Unit × Kitties × List KEvent :=
  if to_ = caller then
    (.error .NotAllowed, s, [])
  else
    (.ok (),
      { s with operator_approvals := fun p =>
          if p = (caller, to_) then approved else s.operator_approvals p },
      [KEvent.ApprovalForAll caller to_ approved])

/-- `approve_for` (lines 219-245).  The owner-or-operator check evaluates
`owner.expect(..)` in its second disjunct, so calling it on a token with no
owner panics (`none`). -/
def Kitties.approve_for (s : Kitties) (caller to_ : AccountId) (id : KittyId) :
    Option (Except ERC721Error Unit × Kitties × List KEvent) :=
  let owner := s.kitty_owner id
  let auth : Option Bool :=
    if owner = some caller then some true
    else
      match owner with
      | some o => some (s.approved_for_all o caller)
      | none => none
  match auth with
  | none => none
  | some au =>
    if au = false then some (.error .NotAllowed, s, [])
    else if to_ = nullAccount then some (.error .NotAllowed, s, [])
    else if (s.token_approvals id).isSome then some (.error .CannotInsert, s, [])
    else
      some (.ok (),
        { s with token_approvals := fun k => if k = id then some to_ else s.token_approvals k },
        [KEvent.Approval caller to_ id])

/-- Message `balance_of` (lines 286-288). -/
def Kitties.balance_of (s : Kitties) (owner : AccountId) : Nat :=
  s.balance_of_or_zero owner

/-- Message `owner_of` (lines 292-294). -/
def Kitties.owner_of (s : Kitties) (id : KittyId) : Option AccountId :=
  s.kitty_owner id

/-- Message `get_approved` (lines 298-300). -/
def Kitties.get_approved (s : Kitties) (id : KittyId) : Option AccountId :=
  s.token_approvals id

/-- Message `is_approved_for_all` (lines 304-306). -/
def Kitties.is_approved_for_all (s : Kitties) (owner operator : AccountId) : Bool :=
  s.approved_for_all owner operator

/-- Message `set_approval_for_all` (lines 310-313). -/
def Kitties.set_approval_for_all (s : Kitties) (caller to_ : AccountId) (approved : Bool) :
    Except ERC721Error Unit × Kitties × List KEvent :=
  s.approve_for_all caller to_ approved

/-- Message `approve` (lines 317-320). -/
def Kitties.approve (s : Kitties) (caller to_ : AccountId) (id : KittyId) :
    Option (Except ERC721Error Unit × Kitties × List KEvent) :=
  s.approve_for caller to_ id

/-- Message `transfer` (lines 324-328): `from` is the caller. -/
def Kitties.transfer (s : Kitties) (caller destination : AccountId) (id : KittyId) :
    Option (Except ERC721Error Unit × Kitties × List KEvent) :=
  s.transfer_token_from caller caller destination id

/-- Message `transfer_from` (lines 332-335): `from` is caller-supplied and is
never compared against the token's actual owner. -/
def Kitties.transfer_from (s : Kitties) (caller from_ to_ : AccountId) (id : KittyId) :
    Option (Except ERC721Error Unit × Kitties × List KEvent) :=
  s.transfer_token_from caller from_ to_ id

/-- Message `mint` (lines 339-356).  `kitties_account` is the registry's own
account id; the ledger sees the registry as the caller of the delegated
payment.  The payment runs before `add_token_to`, so its effect on the ledger
survives into a `TokenExists` return. -/
def Kitties.mint (s : Kitties) (coin : KittyCoin) (kitties_account caller : AccountId)
    (mint_price : Balance) (id : KittyId) :
    Option (Except ERC721Error Unit × Kitties × KittyCoin × List KEvent) :=
  match coin.transfer_from kitties_account caller kitties_account mint_price with
  | none => none
  | some (payment_result, coin1, _) =>
    match payment_result with
    | .error _ => some (.error .CoinTransferFail, s, coin1, [])
    | .ok _ =>
      match s.add_token_to caller id with
      | none => none
      | some (.error e, s1) => some (.error e, s1, coin1, [])
      | some (.ok _, s1) =>
        some (.ok (), s1, coin1, [KEvent.Transfer (some nullAccount) (some caller) id])

/-- Message `burn` (lines 360-387).  Only the owner may burn; the token
approval is NOT cleared.  `count - 1` is checked `u32` arithmetic. -/
def Kitties.burn (s : Kitties) (caller : AccountId) (id : KittyId) :
    Option (Except ERC721Error Unit × Kitties × List KEvent) :=
  match s.kitty_owner id with
  | none => some (.error .TokenNotFound, s, [])
  | some owner =>
    if owner ≠ caller then some (.error .NotOwner, s, [])
    else
      match s.owned_kitties_count caller with
      | none => some (.error .CannotFetchValue, s, [])
      | some c =>
        if c = 0 then none
        else
          some (.ok (),
            { s with
              owned_kitties_count := fun a =>
                if a = caller then some (c - 1) else s.owned_kitties_count a
              kitty_owner := fun k => if k = id then none else s.kitty_owner k },
            [KEvent.Transfer (some caller) (some nullAccount) id])

/-- Errors of the `kitty_market` contract (src/kitty_market/lib.rs, lines 23-50). -/
inductive MarketError : Type
  | NoOwner
  | NotOwner
  | NotForSale
  | AlreadyListedForSale
  | NotForAdoption
  | AlreadyListedForAdoption
  | PriceIsZero
  | CoinTransferFail
  | OwnershipTransferFail
  | OwnedKittiesCountNotFound
  | ListAdoptNotApproved
  | ListSaleNotApproved
deriving DecidableEq, Repr

/-- Events emitted by the `kitty_market` contract (lines 54-88). -/
inductive MEvent : Type
  | ListedForAdoption : AccountId → KittyId → MEvent
  | Adopted : AccountId → KittyId → MEvent
  | ListedForSale : AccountId → KittyId → Balance → MEvent
  | Sold : AccountId → AccountId → KittyId → Balance → MEvent
deriving DecidableEq, Repr

/-- Storage of the `KittyMarket` contract (lines 9-21).  The contract account
references (`kitties_contract_account`, the two `contract_ref` fields) are
passed as explicit arguments to the operations; the unused `minted_count`
(only referenced by commented-out code) is omitted. -/
structure KittyMarket : Type where
  kitties_for_sale : KittyId → Option Balance
  kitty_ids_for_sale : List KittyId
  kitties_for_adoption : List KittyId

/-- Constructor `KittyMarket::new` (lines 91-102). -/
def KittyMarket.new : KittyMarket :=
  { kitties_for_sale := fun _ => none
    kitty_ids_for_sale := []
    kitties_for_adoption := [] }

/-- Combined state of the three contracts as seen by a marketplace call; the
market's cross-contract calls mutate `coin` and `reg` in place.  The callees'
own event logs are recorded by the host, not read by the market, and are
dropped here. -/
structure MarketSys : Type where
  coin : KittyCoin
  reg : Kitties
  mkt : KittyMarket

/-- Message `list_for_adoption` (lines 117-146).  `market_account` is the
market contract's own account (the caller the registry sees);
`kitties_account` is the stored `kitties_contract_account` that the market
(mistakenly, per the source TODO) names as approved transferee.  Removes the
id from the for-sale id vector but NOT from the for-sale price mapping. -/
def KittyMarket.list_for_adoption (market_account kitties_account : AccountId)
    (sys : MarketSys) (caller : AccountId) (kitty_id : KittyId) :
    Option (Except MarketError Unit × MarketSys × List MEvent) :=
  if sys.reg.owner_of kitty_id ≠ some caller then
    some (.error .NotOwner, sys, [])
  else if sys.mkt.kitties_for_adoption.contains kitty_id then
    some (.error .AlreadyListedForAdoption, sys, [])
  else
    match sys.reg.approve market_account kitties_account kitty_id with
    | none => none
    | some (.error _, reg1, _) =>
      some (.error .ListAdoptNotApproved, { sys with reg := reg1 }, [])
    | some (.ok _, reg1, _) =>
      some (.ok (),
        { sys with
          reg := reg1
          mkt :=
            { sys.mkt with
              kitties_for_adoption := sys.mkt.kitties_for_adoption ++ [kitty_id]
              kitty_ids_for_sale :=
                sys.mkt.kitty_ids_for_sale.filter (fun i => i ≠ kitty_id) } },
        [MEvent.ListedForAdoption caller kitty_id])

/-- Message `adopt` (lines 149-172).  `owner_of(..).expect(..)` panics when the
listed token has lost its owner. -/
def KittyMarket.adopt (market_account : AccountId) (sys : MarketSys)
    (adopter : AccountId) (kitty_id : KittyId) :
    Option (Except MarketError Unit × MarketSys × List MEvent) :=
  if sys.mkt.kitties_for_adoption.contains kitty_id = false then
    some (.error .NotForAdoption, sys, [])
  else
    match sys.reg.owner_of kitty_id with
    | none => none
    | some owner =>
      match sys.reg.transfer_from market_account owner adopter kitty_id with
      | none => none
      | some (.error _, reg1, _) =>
        some (.error .OwnershipTransferFail, { sys with reg := reg1 }, [])
      | some (.ok _, reg1, _) =>
        some (.ok (),
          { sys with
            reg := reg1
            mkt :=
              { sys.mkt with
                kitties_for_adoption :=
                  sys.mkt.kitties_for_adoption.filter (fun i => i ≠ kitty_id) } },
          [MEvent.Adopted adopter kitty_id])

/-- Message `list_for_sale` (lines 174-209).  Inserts into both the price
mapping and the id vector, and removes the id from the adoption vector. -/
def KittyMarket.list_for_sale (market_account kitties_account : AccountId)
    (sys : MarketSys) (caller : AccountId) (kitty_id : KittyId) (price : Balance) :
    Option (Except MarketError Unit × MarketSys × List MEvent) :=
  if sys.reg.owner_of kitty_id ≠ some caller then
    some (.error .NotOwner, sys, [])
  else if price = 0 then
    some (.error .PriceIsZero, sys, [])
  else if (sys.mkt.kitties_for_sale kitty_id).isSome then
    some (.error .AlreadyListedForSale, sys, [])
  else
    match sys.reg.approve market_account kitties_account kitty_id with
    | none => none
    | some (.error _, reg1, _) =>
      some (.error .ListSaleNotApproved, { sys with reg := reg1 }, [])
    | some (.ok _, reg1, _) =>
      some (.ok (),
        { sys with
          reg := reg1
          mkt :=
            { sys.mkt with
              kitties_for_sale := fun k =>
                if k = kitty_id then some price else sys.mkt.kitties_for_sale k
              kitty_ids_for_sale := sys.mkt.kitty_ids_for_sale ++ [kitty_id]
              kitties_for_adoption :=
                sys.mkt.kitties_for_adoption.filter (fun i => i ≠ kitty_id) } },
        [MEvent.ListedForSale caller kitty_id price])

/-- Message `buy` (lines 211-255).  For-sale membership is checked on the PRICE
MAPPING; the payment (ledger delegated transfer with the market as caller) runs
strictly before the ownership transfer; the listing is cleared and `Sold`
emitted only on success. -/
def KittyMarket.buy (market_account : AccountId) (sys : MarketSys)
    (buyer : AccountId) (kitty_id : KittyId) :
    Option (Except MarketError Unit × MarketSys × List MEvent) :=
  match sys.mkt.kitties_for_sale kitty_id with
  | none => some (.error .NotForSale, sys, [])
  | some price =>
    match sys.reg.owner_of kitty_id with
    | none => some (.error .NoOwner, sys, [])
    | some seller =>
      match sys.coin.transfer_from market_account buyer seller price with
      | none => none
      | some (.error _, coin1, _) =>
        some (.error .CoinTransferFail, { sys with coin := coin1 }, [])
      | some (.ok _, coin1, _) =>
        match sys.reg.transfer_from market_account seller buyer kitty_id with
        | none => none
        | some (.error _, reg1, _) =>
          some (.error .OwnershipTransferFail, { sys with coin := coin1, reg := reg1 }, [])
        | some (.ok _, reg1, _) =>
          some (.ok (),
            { coin := coin1
              reg := reg1
              mkt :=
                { kitties_for_sale := fun k =>
                    if k = kitty_id then none else sys.mkt.kitties_for_sale k
                  kitty_ids_for_sale :=
                    sys.mkt.kitty_ids_for_sale.filter (fun i => i ≠ kitty_id)
                  kitties_for_adoption := sys.mkt.kitties_for_adoption } },
            [MEvent.Sold seller buyer kitty_id price])

example :
    ((KittyCoin.new 1 10000).transfer 1 2 12).map (fun p => p.1) = some (.ok ()) := by
  decide

example :
    ((KittyCoin.new 1 10000).transfer 1 2 12).map (fun p => p.2.1.balance_of 1) =
      some 9988 := by
  decide

example :
    ((KittyCoin.new 1 10000).transfer 2 3 12).map (fun p => p.1) =
      some (.error .BalanceTooLow) := by
  decide

/-! C1: ledger conservation.  `transfer_helper` reads `balance_to` before
debiting `from`, so when `to = from` the final `insert` stores the stale
balance plus `value`: a successful self-transfer inflates the sender's balance
and the sum of all balances exceeds the total supply. -/

def c1_coin : KittyCoin := KittyCoin.new 1 1000

/-- C1 (code_bug): reachable state `KittyCoin::new(1000)` by account 1, then
account 1 self-transfers 5.  The call succeeds, account 1 ends with balance
1005 while every other account's balance entry is absent, so the sum of
`balance_of` over all accounts is 1005 ≠ 1000 = `total_supply`, refuting the
conservation invariant on the self-transfer case the claim includes. -/
theorem c1_self_transfer_inflates_supply :
    (c1_coin.transfer 1 1 5).map (fun p => p.1) = some (.ok ())
    ∧ (∀ a : AccountId,
        (c1_coin.transfer 1 1 5).map (fun p => p.2.1.balances a)
          = some (if a = 1 then some 1005 else none))
    ∧ (c1_coin.transfer 1 1 5).map (fun p => p.2.1.total_supply) = some 1000 := by
  refine ⟨by decide, fun a => ?_, by decide⟩
  by_cases h : a = 1
  · subst h; decide
  · have h1 : (c1_coin.transfer 1 1 5).map (fun p => p.2.1.balances a)
        = some (if a = 1 then some 1005 else if a = 1 then some 995
            else if a = 1 then some 1000 else none) := rfl
    rw [h1]
    simp [h]

/-! C4: ledger `transfer_from` decrements the allowance before `transfer_helper`
checks the balance, so a `BalanceTooLow` failure still leaves the allowance
reduced by `value` in the contract's own state. -/

def c4_coin : KittyCoin :=
  { total_supply := 1000
    balances := fun _ => none
    allowances := fun p => if p = (1, 2) then some 10 else none }

/-- C4 counterexample: account 2 holds an allowance of 10 from account 1, whose
balance is zero.  `transfer_from(1, 3, 5)` by account 2 fails with
`BalanceTooLow`, yet the allowance entry (1, 2) is 5 afterwards, not the
original 10 — refuting "after any failing call the allowance is unchanged". -/
theorem c4_failed_transfer_reduces_allowance :
    (c4_coin.transfer_from 2 1 3 5).map (fun p => p.1) = some (.error .BalanceTooLow)
    ∧ (c4_coin.transfer_from 2 1 3 5).map (fun p => p.2.1.allowances (1, 2))
        = some (some 5)
    ∧ c4_coin.allowances (1, 2) = some 10 := by
  decide

/-- C4 (amended): `transfer_from(from, to, value)` by `caller` fails with
`AllowanceTooLow`, leaving the state unchanged, when the allowance is below
`value`; otherwise the allowance entry `(from, caller)` is `allowance - value`
in the returned state whether the subsequent debit/credit succeeds or fails
with `BalanceTooLow` — the decrement is not undone on the failing path. -/
theorem c4_allowance_characterization (s : KittyCoin) (caller from_ to_ : AccountId)
    (value : Balance) :
    ((s.allowances (from_, caller)).getD 0 < value →
      s.transfer_from caller from_ to_ value = some (.error .AllowanceTooLow, s, []))
    ∧ (value ≤ (s.allowances (from_, caller)).getD 0 →
      ∀ r s1 evs, s.transfer_from caller from_ to_ value = some (r, s1, evs) →
        s1.allowances (from_, caller)
          = some ((s.allowances (from_, caller)).getD 0 - value)) := by
  constructor
  · intro h
    simp [KittyCoin.transfer_from, h]
  · intro h r s1 evs heq
    have hnl : ¬ (s.allowances (from_, caller)).getD 0 < value := not_lt.mpr h
    simp only [KittyCoin.transfer_from] at heq
    rw [if_neg hnl] at heq
    simp only [KittyCoin.transfer_helper, KittyCoin.balance_of] at heq
    split_ifs at heq with h1 h2
    all_goals
      simp only [Option.some.injEq, Prod.mk.injEq] at heq
    all_goals
      obtain ⟨-, h3, -⟩ := heq
    all_goals
      subst h3
    all_goals
      simp

/-- C4 witness: both branches of `c4_allowance_characterization` at concrete
inputs — an `AllowanceTooLow` failure with untouched state, and the
`c4_coin` run whose allowance ends at `10 - 5`. -/
theorem c4_allowance_witness :
    (KittyCoin.new 1 5).transfer_from 2 1 3 7
        = some (.error .AllowanceTooLow, KittyCoin.new 1 5, [])
    ∧ (c4_coin.transfer_from 2 1 3 5).map (fun p => p.2.1.allowances (1, 2))
        = some (some 5) := by
  constructor
  · exact (c4_allowance_characterization (KittyCoin.new 1 5) 2 1 3 7).1 (by decide)
  · have h := (c4_allowance_characterization c4_coin 2 1 3 5).2 (by decide)
    cases heq : c4_coin.transfer_from 2 1 3 5 with
    | none =>
      have hs : (c4_coin.transfer_from 2 1 3 5).isSome = true := by decide
      rw [heq] at hs
      cases hs
    | some p =>
      have h2 := h p.1 p.2.1 p.2.2 (by rw [heq])
      rw [Option.map_some', h2]
      decide

/-! C9: in `transfer_token_from` the approval is cleared before
`remove_token_from` runs, so a `CannotFetchValue` failure (missing
`owned_kitties_count` entry for `from`) returns with the approval already
gone from the contract state. -/

/-- C9 (confirmed): when the caller is authorized, the token exists, and `from`
has no owned-count entry, `transfer_from` returns `CannotFetchValue` with the
state changed exactly by `clear_approval`, whose `get_approved` is `None`. -/
theorem c9_failed_transfer_clears_approval (s : Kitties) (caller from_ to_ : AccountId)
    (id : KittyId) (hex : (s.kitty_owner id).isSome = true)
    (hauth : s.approved_or_owner (some caller) id = some true)
    (hcnt : s.owned_kitties_count from_ = none) :
    s.transfer_from caller from_ to_ id
        = some (.error .CannotFetchValue, s.clear_approval id, [])
    ∧ (s.clear_approval id).get_approved id = none := by
  constructor
  · simp [Kitties.transfer_from, Kitties.transfer_token_from, Kitties.exists_, hex, hauth,
      Kitties.remove_token_from, Kitties.clear_approval, hcnt]
  · simp [Kitties.clear_approval, Kitties.get_approved]

def c9_reg : Kitties :=
  { kitty_owner := fun k => if k = 1 then some 5 else none
    token_approvals := fun k => if k = 1 then some 6 else none
    owned_kitties_count := fun a => if a = 5 then some 1 else none
    operator_approvals := fun _ => false }

/-- C9 witness: token 1 is owned by account 5 with account 6 approved; the
approved account 6 calls `transfer_from(9, 8, 1)` where account 9 has no
owned-count entry.  The call fails with `CannotFetchValue`, yet the approval
for token 1 is gone. -/
theorem c9_failed_transfer_clears_approval_witness :
    c9_reg.transfer_from 6 9 8 1
        = some (.error .CannotFetchValue, c9_reg.clear_approval 1, [])
    ∧ (c9_reg.clear_approval 1).get_approved 1 = none :=
  c9_failed_transfer_clears_approval c9_reg 6 9 8 1 (by decide) (by decide) (by decide)

/-! Helper lemmas about the registry's internal operations, shared by the
claims below. -/

/-- `approved_or_owner` on an owned token answers `some false` exactly when the
caller is the null account or is neither owner, nor approved account, nor
operator. -/
theorem Kitties.approved_or_owner_false (s : Kitties) (caller o : AccountId) (id : KittyId)
    (h : s.kitty_owner id = some o)
    (hna : ¬ (caller ≠ nullAccount ∧ (caller = o ∨ s.token_approvals id = some caller
        ∨ s.operator_approvals (o, caller) = true))) :
    s.approved_or_owner (some caller) id = some false := by
  by_cases hc : caller = nullAccount
  · simp [Kitties.approved_or_owner, hc]
  · push_neg at hna
    obtain ⟨hno, hnap, hnop⟩ := hna hc
    have hnap2 : ¬ (some caller = s.token_approvals id) := fun hh => hnap hh.symm
    have hop : s.operator_approvals (o, caller) = false := by
      simpa using hnop
    simp [Kitties.approved_or_owner, h, hc, hno, hnap2, Kitties.approved_for_all, hop]

/-- `approved_or_owner` on an owned token answers `some true` whenever the
caller is non-null and is the owner, the approved account, or an operator. -/
theorem Kitties.approved_or_owner_true (s : Kitties) (caller o : AccountId) (id : KittyId)
    (h : s.kitty_owner id = some o)
    (ha : caller ≠ nullAccount ∧ (caller = o ∨ s.token_approvals id = some caller
        ∨ s.operator_approvals (o, caller) = true)) :
    s.approved_or_owner (some caller) id = some true := by
  obtain ⟨hc, hd⟩ := ha
  rcases hd with hd | hd | hd
  · subst hd
    simp [Kitties.approved_or_owner, h, hc]
  · by_cases hoc : some caller = s.kitty_owner id
    · simp [Kitties.approved_or_owner, hc, hoc.symm]
    · simp [Kitties.approved_or_owner, hc, hoc, hd]
  · by_cases hoc : some caller = s.kitty_owner id
    · simp [Kitties.approved_or_owner, hc, hoc.symm]
    · by_cases hap : some caller = s.token_approvals id
      · simp [Kitties.approved_or_owner, hc, hoc, hap.symm]
      · have hco : ¬ caller = o := fun e => hoc (by rw [h, e])
        simp [Kitties.approved_or_owner, h, hc, hco, hap, Kitties.approved_for_all, hd]

/-- A normal return of `remove_token_from` is `TokenNotFound`,
`CannotFetchValue` or success, and never touches the token approvals. -/
theorem Kitties.remove_token_from_cases (s s2 : Kitties) (from_ : AccountId) (id : KittyId)
    (r : Except ERC721Error Unit) (h : s.remove_token_from from_ id = some (r, s2)) :
    (r = .error .TokenNotFound ∨ r = .error .CannotFetchValue ∨ r = .ok ())
    ∧ s2.token_approvals = s.token_approvals := by
  rw [Kitties.remove_token_from] at h
  split at h
  · simp only [Option.some.injEq, Prod.mk.injEq] at h
    obtain ⟨h1, h2⟩ := h
    subst h1; subst h2
    exact ⟨Or.inl rfl, rfl⟩
  · split at h
    · simp only [Option.some.injEq, Prod.mk.injEq] at h
      obtain ⟨h1, h2⟩ := h
      subst h1; subst h2
      exact ⟨Or.inr (Or.inl rfl), rfl⟩
    · split at h
      · cases h
      · simp only [Option.some.injEq, Prod.mk.injEq] at h
        obtain ⟨h1, h2⟩ := h
        subst h1; subst h2
        exact ⟨Or.inr (Or.inr rfl), rfl⟩

/-- A normal return of `add_token_to` is `TokenExists`, `NotAllowed` or
success, and never touches the token approvals. -/
theorem Kitties.add_token_to_cases (s s2 : Kitties) (to_ : AccountId) (id : KittyId)
    (r : Except ERC721Error Unit) (h : s.add_token_to to_ id = some (r, s2)) :
    (r = .error .TokenExists ∨ r = .error .NotAllowed ∨ r = .ok ())
    ∧ s2.token_approvals = s.token_approvals := by
  rw [Kitties.add_token_to] at h
  split at h
  · simp only [Option.some.injEq, Prod.mk.injEq] at h
    obtain ⟨h1, h2⟩ := h
    subst h1; subst h2
    exact ⟨Or.inl rfl, rfl⟩
  · split at h
    · simp only [Option.some.injEq, Prod.mk.injEq] at h
      obtain ⟨h1, h2⟩ := h
      subst h1; subst h2
      exact ⟨Or.inr (Or.inl rfl), rfl⟩
    · split at h
      · split at h
        · simp only [Option.some.injEq, Prod.mk.injEq] at h
          obtain ⟨h1, h2⟩ := h
          subst h1; subst h2
          exact ⟨Or.inr (Or.inr rfl), rfl⟩
        · cases h
      · simp only [Option.some.injEq, Prod.mk.injEq] at h
        obtain ⟨h1, h2⟩ := h
        subst h1; subst h2
        exact ⟨Or.inr (Or.inr rfl), rfl⟩

/-- On an existing token with an authorized caller, `transfer_token_from`
reduces to clearing the approval and then doing the remove/add bookkeeping. -/
theorem Kitties.transfer_token_from_auth (s : Kitties) (caller from_ to_ : AccountId)
    (id : KittyId) (hex : s.exists_ id = true)
    (haoo : s.approved_or_owner (some caller) id = some true) :
    s.transfer_token_from caller from_ to_ id
      = match (s.clear_approval id).remove_token_from from_ id with
        | none => none
        | some (.error e, s2) => some (.error e, s2, [])
        | some (.ok _, s2) =>
          match s2.add_token_to to_ id with
          | none => none
          | some (.error e, s3) => some (.error e, s3, [])
          | some (.ok _, s3) =>
            some (.ok (), s3, [KEvent.Transfer (some from_) (some to_) id]) := by
  rw [Kitties.transfer_token_from, hex, haoo]
  rfl

/-- On an existing token with an unauthorized caller, `transfer_token_from`
fails with `NotApproved` and leaves the state untouched. -/
theorem Kitties.transfer_token_from_unauth (s : Kitties) (caller from_ to_ : AccountId)
    (id : KittyId) (hex : s.exists_ id = true)
    (haoo : s.approved_or_owner (some caller) id = some false) :
    s.transfer_token_from caller from_ to_ id = some (.error .NotApproved, s, []) := by
  rw [Kitties.transfer_token_from, hex, haoo]
  rfl

/-- On an existing token, a panic inside `approved_or_owner` propagates. -/
theorem Kitties.transfer_token_from_panic (s : Kitties) (caller from_ to_ : AccountId)
    (id : KittyId) (hex : s.exists_ id = true)
    (haoo : s.approved_or_owner (some caller) id = none) :
    s.transfer_token_from caller from_ to_ id = none := by
  rw [Kitties.transfer_token_from, hex, haoo]
  rfl

/-! C3: transfer authorization and approval clearing.  The `TokenNotFound` and
the approval-clearing parts hold, but `approved_or_owner` rejects the null
account before even looking at the operator table, so a null caller that IS a
registered operator of the owner still gets `NotApproved` — the claim's
"unless the caller is ... an approved operator" is refuted there. -/

def c3_reg : Kitties :=
  { kitty_owner := fun k => if k = 1 then some 5 else none
    token_approvals := fun _ => none
    owned_kitties_count := fun a => if a = 5 then some 1 else none
    operator_approvals := fun p => p == (5, 0) }

/-- C3 counterexample: token 1 is owned by account 5 and the null account 0 is
a registered operator of 5 (reachable: `set_approval_for_all(0, true)` by 5
passes its only check `to != caller`).  A transfer call by caller 0 still
fails with `NotApproved`, although the caller is an approved operator of the
owner, refuting the claim as stated. -/
theorem c3_null_operator_counterexample :
    c3_reg.is_approved_for_all 5 0 = true
    ∧ c3_reg.owner_of 1 = some 5
    ∧ c3_reg.transfer_from 0 5 6 1 = some (.error .NotApproved, c3_reg, []) := by
  refine ⟨by decide, by decide, ?_⟩
  rfl

/-- C3 (amended): for every registry state and call `transfer`/`transfer_from`
on token `id`: the call fails with `TokenNotFound` if `id` has no owner;
otherwise it fails with `NotApproved` unless the caller is non-null AND is the
token's owner, the token's approved account, or an approved operator of the
owner (a null caller is always rejected, even when registered as operator);
when so authorized the call never fails with `NotApproved`; and after every
successful call `get_approved(id)` is `None`. -/
theorem c3_transfer_characterization (s : Kitties) (caller from_ to_ : AccountId)
    (id : KittyId) :
    (s.kitty_owner id = none →
      s.transfer_from caller from_ to_ id = some (.error .TokenNotFound, s, []))
    ∧ (∀ o, s.kitty_owner id = some o →
      ¬ (caller ≠ nullAccount ∧ (caller = o ∨ s.token_approvals id = some caller
          ∨ s.operator_approvals (o, caller) = true)) →
      s.transfer_from caller from_ to_ id = some (.error .NotApproved, s, []))
    ∧ (∀ o, s.kitty_owner id = some o →
      (caller ≠ nullAccount ∧ (caller = o ∨ s.token_approvals id = some caller
          ∨ s.operator_approvals (o, caller) = true)) →
      ∀ r s1 evs, s.transfer_from caller from_ to_ id = some (r, s1, evs) →
        r ≠ .error .NotApproved)
    ∧ (∀ s1 evs, s.transfer_from caller from_ to_ id = some (.ok (), s1, evs) →
      s1.get_approved id = none) := by
  refine ⟨?_, ?_, ?_, ?_⟩
  · intro h
    simp [Kitties.transfer_from, Kitties.transfer_token_from, Kitties.exists_, h]
  · intro o ho hna
    have haoo := Kitties.approved_or_owner_false s caller o id ho hna
    simp [Kitties.transfer_from, Kitties.transfer_token_from, Kitties.exists_, ho, haoo]
  · intro o ho ha r s1 evs heq hr
    subst hr
    have haoo := Kitties.approved_or_owner_true s caller o id ho ha
    have hexb : s.exists_ id = true := by simp [Kitties.exists_, ho]
    rw [Kitties.transfer_from,
      Kitties.transfer_token_from_auth s caller from_ to_ id hexb haoo] at heq
    split at heq
    · cases heq
    · rename_i e s2 hrm
      have hrc := Kitties.remove_token_from_cases (s.clear_approval id) s2 from_ id
        (.error e) hrm
      simp only [Option.some.injEq, Prod.mk.injEq] at heq
      have h1 : e = ERC721Error.NotApproved := Except.error.inj heq.1
      rcases hrc.1 with hv | hv | hv
      · exact ERC721Error.noConfusion (h1 ▸ Except.error.inj hv)
      · exact ERC721Error.noConfusion (h1 ▸ Except.error.inj hv)
      · exact Except.noConfusion hv
    · rename_i u s2 hrm
      split at heq
      · cases heq
      · rename_i e s3 hadd
        have hac := Kitties.add_token_to_cases s2 s3 to_ id (.error e) hadd
        simp only [Option.some.injEq, Prod.mk.injEq] at heq
        have h1 : e = ERC721Error.NotApproved := Except.error.inj heq.1
        rcases hac.1 with hv | hv | hv
        · exact ERC721Error.noConfusion (h1 ▸ Except.error.inj hv)
        · exact ERC721Error.noConfusion (h1 ▸ Except.error.inj hv)
        · exact Except.noConfusion hv
      · simp only [Option.some.injEq, Prod.mk.injEq] at heq
        exact Except.noConfusion heq.1
  · intro s1 evs heq
    rw [Kitties.transfer_from] at heq
    by_cases hexb : s.exists_ id = true
    · cases haoo : s.approved_or_owner (some caller) id with
      | none =>
        rw [Kitties.transfer_token_from_panic s caller from_ to_ id hexb haoo] at heq
        cases heq
      | some b =>
        cases b with
        | false =>
          rw [Kitties.transfer_token_from_unauth s caller from_ to_ id hexb haoo] at heq
          simp only [Option.some.injEq, Prod.mk.injEq] at heq
          exact Except.noConfusion heq.1
        | true =>
          rw [Kitties.transfer_token_from_auth s caller from_ to_ id hexb haoo] at heq
          split at heq
          · cases heq
          · rename_i e s2 hrm
            simp only [Option.some.injEq, Prod.mk.injEq] at heq
            exact Except.noConfusion heq.1
          · rename_i u s2 hrm
            split at heq
            · cases heq
            · rename_i e s3 hadd
              simp only [Option.some.injEq, Prod.mk.injEq] at heq
              exact Except.noConfusion heq.1
            · rename_i u2 s3 hadd
              have hrc := Kitties.remove_token_from_cases (s.clear_approval id) s2 from_ id
                (.ok u) hrm
              have hac := Kitties.add_token_to_cases s2 s3 to_ id (.ok u2) hadd
              simp only [Option.some.injEq, Prod.mk.injEq] at heq
              obtain ⟨-, h2, -⟩ := heq
              subst h2
              rw [Kitties.get_approved, hac.2, hrc.2]
              simp [Kitties.clear_approval]
    · have hexf : s.exists_ id = false := by simpa using hexb
      rw [Kitties.transfer_token_from, hexf] at heq
      simp only [Bool.false_eq_true, reduceIte, Option.some.injEq, Prod.mk.injEq] at heq
      rcases heq with ⟨h1, -⟩
      exact Except.noConfusion h1

/-- C3 witness: the amended characterization applied at concrete inputs — a
`TokenNotFound` case on the fresh registry, a `NotApproved` case for an
unrelated caller on `c3_reg`, and the approval-clearing conclusion on the
successful run of `c9_reg`-like data (owner account 5 transfers token 1). -/
theorem c3_transfer_characterization_witness :
    Kitties.new.transfer_from 1 1 2 9 = some (.error .TokenNotFound, Kitties.new, [])
    ∧ c3_reg.transfer_from 8 5 6 1 = some (.error .NotApproved, c3_reg, [])
    ∧ ((c3_reg.transfer_from 5 5 6 1).map (fun p => p.2.1.get_approved 1)
        = some none) := by
  refine ⟨(c3_transfer_characterization Kitties.new 1 1 2 9).1 rfl, ?_, ?_⟩
  · exact (c3_transfer_characterization c3_reg 8 5 6 1).2.1 5 rfl (by decide)
  · have h := (c3_transfer_characterization c3_reg 5 5 6 1).2.2.2
    cases heq : c3_reg.transfer_from 5 5 6 1 with
    | none =>
      have hs : (c3_reg.transfer_from 5 5 6 1).isSome = true := by decide
      rw [heq] at hs; cases hs
    | some p =>
      obtain ⟨r, s1, evs⟩ := p
      have hr : r = .ok () := by
        have hv : (c3_reg.transfer_from 5 5 6 1).map (fun q => q.1) = some (.ok ()) := by
          decide
        rw [heq] at hv
        simpa using hv
      subst hr
      rw [Option.map_some']
      exact congrArg some (h s1 evs heq)

/-! C8: single-slot token approval. -/

/-- C8 (confirmed): `approve(to, id)` on a token owned by `o` fails with
`NotAllowed` unless the caller is the owner or an approved operator; fails with
`NotAllowed` when `to` is the null account; fails with `CannotInsert` — state
untouched, existing approval never overwritten — when an approval already
exists; and otherwise records `to` as the approved account and emits the
`Approval` event. -/
theorem c8_approve_characterization (s : Kitties) (caller to_ : AccountId) (id : KittyId)
    (o : AccountId) (h : s.kitty_owner id = some o) :
    (¬ (o = caller ∨ s.operator_approvals (o, caller) = true) →
      s.approve caller to_ id = some (.error .NotAllowed, s, []))
    ∧ ((o = caller ∨ s.operator_approvals (o, caller) = true) → to_ = nullAccount →
      s.approve caller to_ id = some (.error .NotAllowed, s, []))
    ∧ (∀ a, (o = caller ∨ s.operator_approvals (o, caller) = true) → to_ ≠ nullAccount →
      s.token_approvals id = some a →
      s.approve caller to_ id = some (.error .CannotInsert, s, []))
    ∧ ((o = caller ∨ s.operator_approvals (o, caller) = true) → to_ ≠ nullAccount →
      s.token_approvals id = none →
      s.approve caller to_ id
        = some (.ok (),
            { s with token_approvals := fun k =>
                if k = id then some to_ else s.token_approvals k },
            [KEvent.Approval caller to_ id])) := by
  have hauth : (o = caller ∨ s.operator_approvals (o, caller) = true) →
      s.approve caller to_ id
        = (if to_ = nullAccount then some (.error .NotAllowed, s, [])
          else if (s.token_approvals id).isSome then some (.error .CannotInsert, s, [])
          else some (.ok (),
            { s with token_approvals := fun k =>
                if k = id then some to_ else s.token_approvals k },
            [KEvent.Approval caller to_ id])) := by
    intro hd
    rcases hd with hd | hd
    · subst hd
      simp [Kitties.approve, Kitties.approve_for, h]
    · by_cases hoc : s.kitty_owner id = some caller
      · simp [Kitties.approve, Kitties.approve_for, hoc]
      · have hco : ¬ (o = caller) := fun e => hoc (by rw [h, e])
        simp [Kitties.approve, Kitties.approve_for, h, hco, Kitties.approved_for_all, hd]
  refine ⟨?_, ?_, ?_, ?_⟩
  · intro hna
    push_neg at hna
    obtain ⟨hno, hnop⟩ := hna
    have hno2 : ¬ (o = caller) := fun e => hno e
    have hop : s.operator_approvals (o, caller) = false := by simpa using hnop
    simp [Kitties.approve, Kitties.approve_for, h, hno2, Kitties.approved_for_all, hop]
  · intro hd hto
    rw [hauth hd, if_pos hto]
  · intro a hd hto hap
    rw [hauth hd, if_neg hto, if_pos (by rw [hap]; rfl)]
  · intro hd hto hap
    rw [hauth hd, if_neg hto, if_neg (by rw [hap]; exact Bool.false_ne_true)]

def c8_reg : Kitties :=
  { kitty_owner := fun k => if k = 1 then some 5 else if k = 2 then some 5 else none
    token_approvals := fun k => if k = 2 then some 6 else none
    owned_kitties_count := fun a => if a = 5 then some 2 else none
    operator_approvals := fun _ => false }

/-- C8 witness: on `c8_reg` (account 5 owns tokens 1 and 2; token 2 already
has an approval) the characterization yields — rejection of the stranger
account 9, rejection of a null `to`, `CannotInsert` on token 2 with the
approval intact, and a successful approval of account 8 for token 1. -/
theorem c8_approve_characterization_witness :
    c8_reg.approve 9 8 1 = some (.error .NotAllowed, c8_reg, [])
    ∧ c8_reg.approve 5 0 1 = some (.error .NotAllowed, c8_reg, [])
    ∧ c8_reg.approve 5 8 2 = some (.error .CannotInsert, c8_reg, [])
    ∧ c8_reg.approve 5 8 1
        = some (.ok (),
            { c8_reg with token_approvals := fun k =>
                if k = 1 then some 8 else c8_reg.token_approvals k },
            [KEvent.Approval 5 8 1]) := by
  refine ⟨?_, ?_, ?_, ?_⟩
  · exact (c8_approve_characterization c8_reg 9 8 1 5 rfl).1 (by decide)
  · exact (c8_approve_characterization c8_reg 5 0 1 5 rfl).2.1 (Or.inl rfl) rfl
  · exact (c8_approve_characterization c8_reg 5 8 2 5 rfl).2.2.1 6 (Or.inl rfl)
      (by decide) rfl
  · exact (c8_approve_characterization c8_reg 5 8 1 5 rfl).2.2.2 (Or.inl rfl)
      (by decide) rfl

/-! C2: the registry's count/ownership invariant.  `transfer_token_from` never
checks that the supplied `from` is the token's actual owner: an authorized
caller can pass any `from`, decrementing that account's count while the real
owner keeps its count — the call still succeeds and the invariant breaks.  The
state below is built by running the constructors and operations themselves, so
it is reachable. -/

def c2_coin0 : KittyCoin := KittyCoin.new 1 1000

def c2_coin1 : KittyCoin := (c2_coin0.approve 1 7 100).2.1

def c2_run1 : Option (Except ERC721Error Unit × Kitties × KittyCoin × List KEvent) :=
  Kitties.mint Kitties.new c2_coin1 7 1 10 1

def c2_reg1 : Kitties :=
  match c2_run1 with
  | some p => p.2.1
  | none => Kitties.new

def c2_coin2 : KittyCoin :=
  match c2_run1 with
  | some p => p.2.2.1
  | none => c2_coin1

def c2_run2 : Option (Except ERC721Error Unit × Kitties × KittyCoin × List KEvent) :=
  Kitties.mint c2_reg1 c2_coin2 7 1 10 2

def c2_reg2 : Kitties :=
  match c2_run2 with
  | some p => p.2.1
  | none => c2_reg1

def c2_run3 : Option (Except ERC721Error Unit × Kitties × List KEvent) :=
  c2_reg2.transfer 1 2 2

def c2_reg3 : Kitties :=
  match c2_run3 with
  | some p => p.2.1
  | none => c2_reg2

def c2_run4 : Option (Except ERC721Error Unit × Kitties × List KEvent) :=
  c2_reg3.transfer_from 1 2 3 1

def c2_reg4 : Kitties :=
  match c2_run4 with
  | some p => p.2.1
  | none => c2_reg3

/-- C2 (code_bug): account 1 mints tokens 1 and 2 (paying the registry account
7 through the ledger), transfers token 2 to account 2 — at this point every
account's `balance_of` equals the number of tokens it owns — and then, as the
owner of token 1, calls `transfer_from(from := 2, to := 3, id := 1)`.  The call
SUCCEEDS: token 1 goes to account 3, but account 2's count was decremented to
0 although it still owns token 2, and account 1's count stays 1 although it
owns nothing — the claimed equality fails after a successful operation. -/
theorem c2_transfer_from_desyncs_counts :
    c2_run1.map (fun p => p.1) = some (.ok ())
    ∧ c2_run2.map (fun p => p.1) = some (.ok ())
    ∧ c2_run3.map (fun p => p.1) = some (.ok ())
    ∧ c2_reg3.balance_of 2 = 1
    ∧ c2_reg3.owner_of 2 = some 2
    ∧ c2_run4.map (fun p => p.1) = some (.ok ())
    ∧ c2_reg4.owner_of 2 = some 2
    ∧ c2_reg4.balance_of 2 = 0
    ∧ c2_reg4.owner_of 1 = some 3
    ∧ c2_reg4.balance_of 1 = 1
    ∧ ((List.range 8).filter (fun k => c2_reg4.owner_of k == some 2)).length = 1
    ∧ ((List.range 8).filter (fun k => c2_reg4.owner_of k == some 1)).length = 0 := by
  decide

/-! C6: sale/adoption mutual exclusion.  `list_for_adoption` removes the id
from the for-sale id VECTOR but not from the for-sale price MAPPING, and `buy`
checks the mapping — so after a successful `list_for_adoption` the token can
still be bought.  The state below is built by running the operations, so it is
reachable. -/

def c6_coin0 : KittyCoin := KittyCoin.new 1 1000

def c6_coin1 : KittyCoin := (c6_coin0.approve 1 7 100).2.1

def c6_run_mint : Option (Except ERC721Error Unit × Kitties × KittyCoin × List KEvent) :=
  Kitties.mint Kitties.new c6_coin1 7 1 10 1

def c6_reg1 : Kitties :=
  match c6_run_mint with
  | some p => p.2.1
  | none => Kitties.new

def c6_coin2 : KittyCoin :=
  match c6_run_mint with
  | some p => p.2.2.1
  | none => c6_coin1

def c6_reg2 : Kitties := (c6_reg1.set_approval_for_all 1 4 true).2.1

def c6_sys0 : MarketSys := { coin := c6_coin2, reg := c6_reg2, mkt := KittyMarket.new }

def c6_run_sale : Option (Except MarketError Unit × MarketSys × List MEvent) :=
  KittyMarket.list_for_sale 4 7 c6_sys0 1 1 10

def c6_sys1 : MarketSys :=
  match c6_run_sale with
  | some p => p.2.1
  | none => c6_sys0

def c6_run_tr : Option (Except ERC721Error Unit × Kitties × List KEvent) :=
  c6_sys1.reg.transfer 1 2 1

def c6_sys2 : MarketSys :=
  { c6_sys1 with reg :=
      match c6_run_tr with
      | some p => p.2.1
      | none => c6_sys1.reg }

def c6_sys3 : MarketSys :=
  { c6_sys2 with reg := (c6_sys2.reg.set_approval_for_all 2 4 true).2.1 }

def c6_run_adopt : Option (Except MarketError Unit × MarketSys × List MEvent) :=
  KittyMarket.list_for_adoption 4 7 c6_sys3 2 1

def c6_sys4 : MarketSys :=
  match c6_run_adopt with
  | some p => p.2.1
  | none => c6_sys3

def c6_run_buy : Option (Except MarketError Unit × MarketSys × List MEvent) :=
  KittyMarket.buy 4 c6_sys4 3 1

/-- C6 (code_bug): account 1 mints token 1, registers the market (account 4)
as its operator and lists the token for sale at price 10; account 1 then
transfers the token to account 2 in the registry (clearing the token approval);
account 2 registers the market as operator and successfully lists token 1 for
adoption.  After that successful `list_for_adoption`, the for-sale price
mapping still holds token 1 at price 10, and `buy(1)` by account 3 does NOT
fail with `NotForSale` (it proceeds to the payment step and here returns
`CoinTransferFail` only because the buyer has no allowance) — refuting "a
successful list_for_adoption removes any for-sale listing, so a subsequent buy
fails with NotForSale". -/
theorem c6_adoption_leaves_sale_listing :
    c6_run_mint.map (fun p => p.1) = some (.ok ())
    ∧ c6_run_sale.map (fun p => p.1) = some (.ok ())
    ∧ c6_run_tr.map (fun p => p.1) = some (.ok ())
    ∧ c6_run_adopt.map (fun p => p.1) = some (.ok ())
    ∧ c6_sys4.mkt.kitties_for_adoption = [1]
    ∧ c6_sys4.mkt.kitty_ids_for_sale = []
    ∧ c6_sys4.mkt.kitties_for_sale 1 = some 10
    ∧ c6_run_buy.map (fun p => p.1) = some (.error .CoinTransferFail) := by
  decide

/-! C5: minting an already-owned id.  `mint` performs the coin payment BEFORE
`add_token_to` checks existence, so when the payment succeeds the `TokenExists`
failure leaves the ledger changed (price moved, allowance reduced); and when
the payment fails the error is `CoinTransferFail`, not `TokenExists`.  Only the
registry's own state is untouched. -/

def c5_reg : Kitties :=
  { kitty_owner := fun k => if k = 1 then some 2 else none
    token_approvals := fun _ => none
    owned_kitties_count := fun a => if a = 2 then some 1 else none
    operator_approvals := fun _ => false }

def c5_coin : KittyCoin :=
  { total_supply := 1000
    balances := fun a => if a = 1 then some 100 else none
    allowances := fun p => if p = (1, 7) then some 50 else none }

/-- C5 counterexample: token 1 is already owned by account 2; account 1 (coin
balance 100, allowance 50 toward the registry account 7) calls `mint(1)` with
mint price 10.  The call fails with `TokenExists`, but afterwards account 1's
coin balance is 90, the registry account holds 10, and the allowance is 40 —
the combined state is NOT unchanged. -/
theorem c5_mint_existing_moves_coins :
    (Kitties.mint c5_reg c5_coin 7 1 10 1).map (fun p => p.1)
        = some (.error .TokenExists)
    ∧ (Kitties.mint c5_reg c5_coin 7 1 10 1).map (fun p => p.2.2.1.balance_of 1)
        = some 90
    ∧ (Kitties.mint c5_reg c5_coin 7 1 10 1).map (fun p => p.2.2.1.balance_of 7)
        = some 10
    ∧ (Kitties.mint c5_reg c5_coin 7 1 10 1).map (fun p => p.2.2.1.allowances_of 1 7)
        = some 40
    ∧ c5_coin.balance_of 1 = 100
    ∧ c5_coin.balance_of 7 = 0
    ∧ c5_coin.allowances_of 1 7 = 50 := by
  decide

/-- The error `mint` reports for an already-owned id, as a function of the
payment attempt's outcome. -/
def mintExistingError (r : Except ERC20Error Unit) : ERC721Error :=
  match r with
  | .ok _ => .TokenExists
  | .error _ => .CoinTransferFail

/-- C5 (amended): if token `id` already has an owner, `mint(id)` never succeeds
and never touches the registry state, but the ledger keeps whatever the
delegated payment attempt did to it: the result is exactly the payment
attempt's outcome, mapped to `TokenExists` when the payment went through (with
the price moved and the allowance reduced in the returned ledger) and to
`CoinTransferFail` when it failed. -/
theorem c5_mint_existing_characterization (reg : Kitties) (coin : KittyCoin)
    (ka caller : AccountId) (price : Balance) (id : KittyId)
    (h : (reg.kitty_owner id).isSome = true) :
    Kitties.mint reg coin ka caller price id
      = (coin.transfer_from ka caller ka price).map
          (fun p => (.error (mintExistingError p.1), reg, p.2.1, [])) := by
  rw [Kitties.mint]
  cases hp : coin.transfer_from ka caller ka price with
  | none => rfl
  | some p =>
    obtain ⟨pr, coin1, cevs⟩ := p
    cases pr with
    | error e => rfl
    | ok u =>
      have hadd : reg.add_token_to caller id = some (.error .TokenExists, reg) := by
        rw [Kitties.add_token_to, if_pos h]
      rw [hadd]
      rfl

/-- C5 witness: the amended characterization applied to the `c5_reg` /
`c5_coin` state. -/
theorem c5_mint_existing_witness :
    Kitties.mint c5_reg c5_coin 7 1 10 1
      = (c5_coin.transfer_from 7 1 7 10).map
          (fun p => (.error (mintExistingError p.1), c5_reg, p.2.1, [])) :=
  c5_mint_existing_characterization c5_reg c5_coin 7 1 10 1 (by decide)

/-! C7: `buy` control flow. -/

/-- C7 (confirmed): `buy(id)` fails with `NotForSale` when the id is not in the
sale-price mapping; fails with `NoOwner` when the registry reports no owner;
otherwise attempts the coin payment from the buyer to the registry-reported
owner first — a failing payment yields `CoinTransferFail` with the registry
and listings untouched — and only then the ownership transfer, whose failure
yields `OwnershipTransferFail` with the payment retained; on success the id is
removed from both sale structures and a `Sold` event is emitted. -/
theorem c7_buy_characterization (mA : AccountId) (sys : MarketSys) (buyer : AccountId)
    (id : KittyId) :
    (sys.mkt.kitties_for_sale id = none →
      KittyMarket.buy mA sys buyer id = some (.error .NotForSale, sys, []))
    ∧ (∀ price, sys.mkt.kitties_for_sale id = some price →
      sys.reg.owner_of id = none →
      KittyMarket.buy mA sys buyer id = some (.error .NoOwner, sys, []))
    ∧ (∀ price seller e coin1 cevs, sys.mkt.kitties_for_sale id = some price →
      sys.reg.owner_of id = some seller →
      sys.coin.transfer_from mA buyer seller price = some (.error e, coin1, cevs) →
      KittyMarket.buy mA sys buyer id
        = some (.error .CoinTransferFail, { sys with coin := coin1 }, []))
    ∧ (∀ price seller coin1 cevs e2 reg1 kevs,
      sys.mkt.kitties_for_sale id = some price →
      sys.reg.owner_of id = some seller →
      sys.coin.transfer_from mA buyer seller price = some (.ok (), coin1, cevs) →
      sys.reg.transfer_from mA seller buyer id = some (.error e2, reg1, kevs) →
      KittyMarket.buy mA sys buyer id
        = some (.error .OwnershipTransferFail,
            { sys with coin := coin1, reg := reg1 }, []))
    ∧ (∀ price seller coin1 cevs reg1 kevs,
      sys.mkt.kitties_for_sale id = some price →
      sys.reg.owner_of id = some seller →
      sys.coin.transfer_from mA buyer seller price = some (.ok (), coin1, cevs) →
      sys.reg.transfer_from mA seller buyer id = some (.ok (), reg1, kevs) →
      KittyMarket.buy mA sys buyer id
        = some (.ok (),
            { coin := coin1
              reg := reg1
              mkt :=
                { kitties_for_sale := fun k =>
                    if k = id then none else sys.mkt.kitties_for_sale k
                  kitty_ids_for_sale := sys.mkt.kitty_ids_for_sale.filter (fun i => i ≠ id)
                  kitties_for_adoption := sys.mkt.kitties_for_adoption } },
            [MEvent.Sold seller buyer id price])) := by
  refine ⟨?_, ?_, ?_, ?_, ?_⟩
  · intro h
    rw [KittyMarket.buy, h]
  · intro price h1 h2
    simp only [KittyMarket.buy, h1, h2]
  · intro price seller e coin1 cevs h1 h2 h3
    simp only [KittyMarket.buy, h1, h2, h3]
  · intro price seller coin1 cevs e2 reg1 kevs h1 h2 h3 h4
    simp only [KittyMarket.buy, h1, h2, h3, h4]
  · intro price seller coin1 cevs reg1 kevs h1 h2 h3 h4
    simp only [KittyMarket.buy, h1, h2, h3, h4]

def c7_sysR : MarketSys :=
  { coin :=
      { total_supply := 1000
        balances := fun a => if a = 3 then some 50 else none
        allowances := fun p => if p = (3, 4) then some 20 else none }
    reg :=
      { kitty_owner := fun k => if k = 1 then some 2 else none
        token_approvals := fun _ => none
        owned_kitties_count := fun a => if a = 2 then some 1 else none
        operator_approvals := fun p => p == (2, 4) }
    mkt :=
      { kitties_for_sale := fun k => if k = 1 then some 10 else none
        kitty_ids_for_sale := [1]
        kitties_for_adoption := [] } }

def c7_coin1 : KittyCoin :=
  ((c7_sysR.coin.transfer_from 4 3 2 10).getD (.ok (), c7_sysR.coin, [])).2.1

def c7_cevs : List CoinEvent :=
  ((c7_sysR.coin.transfer_from 4 3 2 10).getD (.ok (), c7_sysR.coin, [])).2.2

def c7_reg1 : Kitties :=
  ((c7_sysR.reg.transfer_from 4 2 3 1).getD (.ok (), c7_sysR.reg, [])).2.1

def c7_kevs : List KEvent :=
  ((c7_sysR.reg.transfer_from 4 2 3 1).getD (.ok (), c7_sysR.reg, [])).2.2

/-- C7 witness: the characterization at concrete inputs — `NotForSale` on an
empty market, and a full successful purchase on `c7_sysR` (buyer 3, seller 2,
market account 4, token 1 at price 10, market registered as the seller's
operator). -/
theorem c7_buy_witness :
    KittyMarket.buy 4 (MarketSys.mk (KittyCoin.new 1 0) Kitties.new KittyMarket.new) 3 1
        = some (.error .NotForSale,
            MarketSys.mk (KittyCoin.new 1 0) Kitties.new KittyMarket.new, [])
    ∧ KittyMarket.buy 4 c7_sysR 3 1
        = some (.ok (),
            { coin := c7_coin1
              reg := c7_reg1
              mkt :=
                { kitties_for_sale := fun k =>
                    if k = 1 then none else c7_sysR.mkt.kitties_for_sale k
                  kitty_ids_for_sale := c7_sysR.mkt.kitty_ids_for_sale.filter (fun i => i ≠ 1)
                  kitties_for_adoption := c7_sysR.mkt.kitties_for_adoption } },
            [MEvent.Sold 2 3 1 10]) := by
  constructor
  · exact (c7_buy_characterization 4
      (MarketSys.mk (KittyCoin.new 1 0) Kitties.new KittyMarket.new) 3 1).1 rfl
  · exact (c7_buy_characterization 4 c7_sysR 3 1).2.2.2.2 10 2 c7_coin1 c7_cevs
      c7_reg1 c7_kevs rfl rfl rfl rfl

/-! C10: `approve_for` evaluates `owner.expect("Error with AccountId")` in its
authorization check whenever the owner lookup is `None` and the caller is not
that `None`-owner, so approving a nonexistent token panics instead of
returning an error variant. -/

/-- C10 (confirmed): for every state in which token `id` has no owner and every
non-null `to`, `approve(to, id)` by any caller panics (modelled `none`); no
`Result` is returned. -/
theorem c10_approve_unowned_panics (s : Kitties) (caller to_ : AccountId) (id : KittyId)
    (h : s.kitty_owner id = none) (hto : to_ ≠ nullAccount) :
    s.approve caller to_ id = none := by
  simp [Kitties.approve, Kitties.approve_for, h]

/-- C10 witness: approving account 2 for the nonexistent token 5 in the fresh
registry panics. -/
theorem c10_approve_unowned_panics_witness :
    Kitties.new.approve 1 2 5 = none :=
  c10_approve_unowned_panics Kitties.new 1 2 5 rfl (by decide)
